import Mathlib

/-!
Shallow embedding of the local process supervisor in `src/app.py` of the
WAICY_planner repository, together with theorems settling the frozen claims
about its specification.

Modelling conventions:
- machine strings are Lean `String` / `List Char`; only the ASCII fragment of
  Python's whitespace/digit classes is modelled (the repository's data is all
  ASCII);
- wall-clock time is modelled in integer milliseconds;
- the operating system and the child processes are modelled as explicit
  oracles (`World`, `ChildBehavior`, attempt sequences) consumed by the
  embedded functions;
- Python exceptions are modelled by explicit error constructors; a Python
  function that cannot raise past its own body returns a plain value.
-/

/-! ### ASCII character helpers (Python `str.strip`, `str.split("=", 1)`) -/

/-- The double-quote character stripped by `value.strip('"')` in app.py line 24. -/
def dquote : Char := Char.ofNat 34

/-- The single-quote character stripped by `value.strip("'")` in app.py line 24. -/
def squote : Char := Char.ofNat 39

/-- ASCII fragment of Python's `str.isspace` class used by `str.strip()`. -/
def isPyWs (c : Char) : Bool :=
  c == ' ' || c == '\t' || c == '\n' || c == '\r' || c == Char.ofNat 11 || c == Char.ofNat 12

/-- Strip leading characters satisfying `p` (one side of Python's `strip`). -/
def stripLeft (p : Char → Bool) (l : List Char) : List Char :=
  l.dropWhile p

/-- Python `str.strip()` on a character list: drop whitespace on both ends. -/
def stripWs (l : List Char) : List Char :=
  ((stripLeft isPyWs l).reverse.dropWhile isPyWs).reverse

/-- Python `str.strip(c)` for a single-character set: drop `c` on both ends. -/
def stripChar (c : Char) (l : List Char) : List Char :=
  ((l.dropWhile (· == c)).reverse.dropWhile (· == c)).reverse

/-- Python `line.split("=", 1)` preceded by the `"=" in line` test
(app.py lines 20-22): `none` when no `=` occurs, otherwise the parts
before and after the first `=`. -/
def splitFirstEq : List Char → Option (List Char × List Char)
  | [] => none
  | c :: rest =>
    if c == '=' then some ([], rest)
    else
      match splitFirstEq rest with
      | some (l, r) => some (c :: l, r)
      | none => none

/-! ### Environment dictionaries (Python `dict[str, str]`) -/

/-- Python `d[k] = v` on an association list: overwrite the existing binding
for `k` if present, else append. -/
def envSet (env : List (String × String)) (k v : String) : List (String × String) :=
  match env with
  | [] => [(k, v)]
  | (k0, v0) :: rest => if k0 = k then (k, v) :: rest else (k0, v0) :: envSet rest k v

/-- Python `d.get(k)` on an association list (keys are unique by construction,
so first match is the binding). -/
def envGet : List (String × String) → String → Option String
  | [], _ => none
  | (k0, v0) :: rest, k => if k0 = k then some v0 else envGet rest k

/-- Python `d.get(k, default)` (app.py line 88). -/
def envGetD (env : List (String × String)) (k d : String) : String :=
  (envGet env k).getD d

/-- Python `base.update(overrides)` (app.py line 86): fold the override
bindings into `base`, later bindings overwriting earlier ones. -/
def envUpdate (base overrides : List (String × String)) : List (String × String) :=
  overrides.foldl (fun e kv => envSet e kv.1 kv.2) base

/-- The value the last binding of `k` in a binding list would give
(Python dict construction order: later bindings win). -/
def lookupLast : List (String × String) → String → Option String
  | [], _ => none
  | p :: rest, k =>
    match lookupLast rest k with
    | some v => some v
    | none => if p.1 = k then some p.2 else none

/-! ### `load_dotenv` (app.py lines 11-28) -/

/-- One iteration of the line loop of `load_dotenv` (app.py lines 16-27):
strip the line; skip blank and `#`-comment lines; skip lines without `=`;
split at the first `=`; strip the key, strip whitespace then double then
single quotes from the value; skip empty keys. -/
def parseDotenvLine (raw : String) : Option (String × String) :=
  let line := stripWs raw.data
  if line.isEmpty then none
  else if line.head? = some '#' then none
  else
    match splitFirstEq line with
    | none => none
    | some (k, v) =>
      let key := stripWs k
      let value := stripChar squote (stripChar dquote (stripWs v))
      if key.isEmpty then none else some (String.mk key, String.mk value)

/-- `load_dotenv(dotenv_path)` (app.py lines 11-28). The file system is
modelled by an existence flag and the file's lines (`splitlines()` output);
accepted lines populate a dict in order, later bindings overwriting. -/
def load_dotenv (present : Bool) (lines : List String) : List (String × String) :=
  if present then
    lines.foldl
      (fun out raw =>
        match parseDotenvLine raw with
        | none => out
        | some (k, v) => envSet out k v)
      []
  else []

/-! ### Python `int(str)` (app.py line 88) -/

/-- Continue parsing a decimal digit run after the first digit, allowing a
single underscore between digits (Python's `int` literal-ish grammar). -/
def parseDigitsRest : List Char → Nat → Option Nat
  | [], acc => some acc
  | c :: rest, acc =>
    if c.isDigit then parseDigitsRest rest (acc * 10 + (c.toNat - 48))
    else if c == '_' then
      match rest with
      | [] => none
      | d :: rest2 =>
        if d.isDigit then parseDigitsRest rest2 (acc * 10 + (d.toNat - 48)) else none
    else none

/-- Parse a nonempty unsigned decimal digit run (underscores allowed only
between digits). -/
def parseUnsigned : List Char → Option Nat
  | [] => none
  | c :: rest => if c.isDigit then parseDigitsRest rest (c.toNat - 48) else none

/-- Python `int(s)` for decimal strings (ASCII fragment): strip whitespace,
optional sign, nonempty digit run with single underscores between digits;
`none` models the `ValueError` raise. -/
def pyIntParse (s : String) : Option Int :=
  match stripWs s.data with
  | '+' :: rest => (parseUnsigned rest).map Int.ofNat
  | '-' :: rest => (parseUnsigned rest).map (fun n => -(Int.ofNat n))
  | l => (parseUnsigned l).map Int.ofNat


/-! ### `wait_for_port` (app.py lines 31-39)

Time is in milliseconds. The network is modelled by an attempt oracle
`a : Nat → Nat × Bool`: the `i`-th connection attempt takes `(a i).1` ms
(at most `connectTimeoutMs`, the 0.8 s timeout of `create_connection`) and
succeeds iff `(a i).2 = true`. A failed attempt is followed by the fixed
`sleepMs` (0.15 s) pause of line 38. The loop re-reads the clock at each
iteration top (line 33), so a failing attempt begun before the deadline may
finish after it. -/

/-- The 0.8 s per-attempt connect timeout of app.py line 35, in ms. -/
def connectTimeoutMs : Nat := 800

/-- The 0.15 s inter-attempt sleep of app.py line 38, in ms. -/
def sleepMs : Nat := 150

/-- The `while time.time() < deadline` loop of app.py lines 33-38.
`now` is the current clock, `i` the index of the next attempt; the result is
the returned Bool together with the clock at return time. `fuel` bounds the
iteration count; every failing iteration advances the clock by at least
`sleepMs`, so `deadline / sleepMs + 1` iterations always suffice. -/
def waitLoop (a : Nat → Nat × Bool) (deadline : Nat) : Nat → Nat → Nat → Bool × Nat
  | fuel, now, i =>
    if now < deadline then
      match fuel with
      | 0 => (false, now)
      | fuel' + 1 =>
        if (a i).2 then (true, now + (a i).1)
        else waitLoop a deadline fuel' (now + (a i).1 + sleepMs) (i + 1)
    else (false, now)

/-- `wait_for_port(host, port, timeout_s)` (app.py lines 31-39), started at
clock 0 with deadline `timeoutMs`: returns the Bool result and the total
wall time consumed. -/
def wait_for_port (a : Nat → Nat × Bool) (timeoutMs : Nat) : Bool × Nat :=
  waitLoop a timeoutMs (timeoutMs / sleepMs + 1) 0 0

/-- Start time of attempt `i` (all earlier attempts having failed). -/
def attemptStart (a : Nat → Nat × Bool) : Nat → Nat
  | 0 => 0
  | i + 1 => attemptStart a i + (a i).1 + sleepMs

/-- An attempt oracle on which every attempt consumes the full 0.8 s connect
timeout and fails. -/
def alwaysSlowFail : Nat → Nat × Bool := fun _ => (connectTimeoutMs, false)

/-- An attempt oracle whose first attempt consumes the full connect timeout
and fails, and whose second consumes the full connect timeout and succeeds. -/
def slowThenOk : Nat → Nat × Bool := fun i => if i = 0 then (connectTimeoutMs, false) else (connectTimeoutMs, true)


/-! ### `terminate_process` (app.py lines 56-69)

The child's reaction is an oracle `ChildBehavior`. The code's possible raise
sites (`proc.terminate()`, `proc.wait(timeout)`, `proc.kill()`) are modelled
explicitly; every one of them is wrapped in the `try/except` blocks of the
source, so the embedding returns `Except.ok` on every path — an uncaught
exception would surface as `Except.error`. -/

/-- Signals the supervisor can send a child. -/
inductive Sig where
  | sigterm
  | sigkill
deriving DecidableEq, Repr

/-- Oracle describing one child process at and after a `terminate_process`
call: whether the graceful-termination request raises (and whether the
process is in fact gone in that case), how long after the request the
process would exit voluntarily (`none`: never), and the same for the
forced kill. -/
structure ChildBehavior where
  termRaises : Bool
  goneOnTermRaise : Bool
  exitDelayMs : Option Nat
  killRaises : Bool
  goneOnKillRaise : Bool

/-- Observable outcome of a `terminate_process` call: whether the process is
gone afterwards, the signals sent, and the wall time spent waiting. -/
structure TermOut where
  gone : Bool
  signals : List Sig
  waitedMs : Nat
deriving DecidableEq, Repr

/-- `terminate_process(proc, name, timeout_s)` (app.py lines 56-69).
`polled` is the `proc.poll()` result at entry (line 57): `some code` means
the process has already exited and the function returns at once. Otherwise
`proc.terminate()` is sent (line 60; a raise is swallowed by line 61-62),
then `proc.wait(timeout_s)` (line 64); on `TimeoutExpired`, `proc.kill()`
(line 67; a raise is swallowed by lines 68-69). -/
def terminate_process (polled : Option Int) (b : ChildBehavior) (graceMs : Nat) : Except Unit TermOut :=
  match polled with
  | some _ => Except.ok ⟨true, [], 0⟩
  | none =>
    if b.termRaises then Except.ok ⟨b.goneOnTermRaise, [Sig.sigterm], 0⟩
    else
      match b.exitDelayMs with
      | some t =>
        if t ≤ graceMs then Except.ok ⟨true, [Sig.sigterm], t⟩
        else if b.killRaises then Except.ok ⟨b.goneOnKillRaise, [Sig.sigterm, Sig.sigkill], graceMs⟩
        else Except.ok ⟨true, [Sig.sigterm, Sig.sigkill], graceMs⟩
      | none =>
        if b.killRaises then Except.ok ⟨b.goneOnKillRaise, [Sig.sigterm, Sig.sigkill], graceMs⟩
        else Except.ok ⟨true, [Sig.sigterm, Sig.sigkill], graceMs⟩

/-! ### The supervisor `main` (app.py lines 72-145)

The OS and children are an oracle `World`; the run produces an optional
result (`none` when the monitoring loop is still running after the supplied
observations) and a trace of externally visible events, in order. -/

/-- Logical role of a child process. -/
inductive Role where
  | web
  | mcp
deriving DecidableEq, Repr

/-- Externally visible events of a supervisor run, in program order:
the `is_port_open` probe (line 90), the port-substitution diagnostic
(lines 93-96), a `subprocess.Popen` spawn with its environment (lines
100-113), a `terminate_process` call (lines 117-119, 142-144), the
readiness-timeout diagnostic (line 120), and the browser-open attempt
(line 125). -/
inductive Event where
  | probe (port : Int)
  | portDiag (requested chosen : Int)
  | spawn (r : Role) (env : List (String × String))
  | terminate (r : Role)
  | timeoutDiag (port : Int) (timeoutMs : Nat)
  | browserOpen (url : String)
deriving DecidableEq, Repr

/-- How a run ends, or the exception aborting it: Python `ValueError` from
`int()` (line 88), a primary-spawn `OSError` (line 100), a secondary-spawn
`OSError` (line 108). -/
inductive RunErr where
  | valueError
  | spawnPrimary
  | spawnSecondary
deriving DecidableEq, Repr

/-- A run's outcome: an uncaught exception or a returned exit code. -/
inductive Outcome where
  | err (e : RunErr)
  | code (c : Int)
deriving DecidableEq, Repr

/-- One monitoring-loop iteration's observations (app.py lines 130-138):
the primary's `poll()` result, the secondary's `poll()` result, and whether
a `KeyboardInterrupt` is delivered during this iteration's sleep. -/
structure MonObs where
  webExit : Option Int
  mcpExit : Option Int
  interrupt : Bool
deriving DecidableEq, Repr

/-- How the monitoring loop ends; `held` is whether the secondary handle is
still present at that moment. `ongoing` means the supplied observations ran
out with the loop still going. -/
inductive MonOut where
  | ongoing (held : Bool)
  | webExited (c : Int) (held : Bool)
  | interrupted (held : Bool)
deriving DecidableEq, Repr

/-- The monitoring loop (app.py lines 130-138): each iteration polls the
primary (return on exit), then the secondary (drop its handle on exit),
then sleeps, during which a `KeyboardInterrupt` may arrive. -/
def monitor : List MonObs → Bool → MonOut
  | [], held => MonOut.ongoing held
  | o :: rest, held =>
    match o.webExit with
    | some c => MonOut.webExited c held
    | none =>
      let held2 := held && !o.mcpExit.isSome
      if o.interrupt then MonOut.interrupted held2
      else monitor rest held2

/-- CLI arguments of app.py lines 73-82 (`--no-open`, `--mcp`, `--host`,
`--timeout`; the timeout in ms). -/
structure Config where
  host : String
  noOpen : Bool
  mcp : Bool
  timeoutMs : Nat

/-- Oracle for one run: the process environment, the `.env` file, the
network (`portOpen` at port-check time, the `find_free_port` answer), spawn
outcomes, the readiness-wait outcome, whether `webbrowser.open` raises, and
the monitoring observations. -/
structure World where
  osEnv : List (String × String)
  dotenvPresent : Bool
  dotenvLines : List String
  portOpen : Int → Bool
  freePort : Int
  webSpawnOk : Bool
  mcpSpawnOk : Bool
  ready : Bool
  browserRaises : Bool
  obs : List MonObs

/-- A run's outcome (`none` while monitoring is still ongoing) and its
event trace. -/
structure RunOut where
  result : Option Outcome
  trace : List Event
deriving DecidableEq, Repr

/-- `env = os.environ.copy(); env.update(load_dotenv(repo_root / ".env"))`
(app.py lines 85-86). -/
def mergedEnv (w : World) : List (String × String) :=
  envUpdate w.osEnv (load_dotenv w.dotenvPresent w.dotenvLines)

/-- `env.get("PORT", "3000")` (app.py line 88). -/
def portString (w : World) : String :=
  envGetD (mergedEnv w) "PORT" "3000"

/-- The effective port after the port check (app.py lines 89-91): the
requested port if it is not accepting connections, else the
`find_free_port` answer. -/
def effectivePort (w : World) (rp : Int) : Int :=
  if w.portOpen rp then w.freePort else rp

/-- The environment passed to both spawns (app.py lines 92, 103, 111):
`PORT` is overwritten with the substituted port exactly when the requested
port was occupied. -/
def spawnEnv (w : World) (rp : Int) : List (String × String) :=
  if w.portOpen rp then envSet (mergedEnv w) "PORT" (toString w.freePort) else mergedEnv w

/-- Trace of the port-check phase (app.py lines 90-96): the probe, then the
substitution diagnostic naming both ports when the requested port was
occupied. -/
def probeTrace (w : World) (rp : Int) : List Event :=
  Event.probe rp :: (if w.portOpen rp then [Event.portDiag rp w.freePort] else [])

/-- `url = f"http://localhost:{port}/index.html"` (app.py line 98): the
host part is the literal `localhost`, not the configured host. -/
def urlOf (port : Int) : String :=
  "http://localhost:" ++ toString port ++ "/index.html"

/-- The browser side effect (app.py lines 123-127): skipped under
`--no-open`; otherwise `webbrowser.open(url, new=2)` is attempted and any
`Exception` it raises is swallowed, so the trace records the attempt on
both branches. -/
def browserTrace (cfg : Config) (w : World) (port : Int) : List Event :=
  if cfg.noOpen then []
  else
    match (if w.browserRaises then Except.error () else Except.ok ()) with
    | Except.ok _ => [Event.browserOpen (urlOf port)]
    | Except.error _ => [Event.browserOpen (urlOf port)]

/-- The monitoring phase and its `finally` block (app.py lines 129-145):
on primary exit, return its code; on `KeyboardInterrupt`, fall through to
return 0; either way the `finally` block terminates the primary and then
the secondary if its handle is still held. -/
def mainMonitor (w : World) (tr3 : List Event) (held : Bool) : RunOut :=
  match monitor w.obs held with
  | MonOut.ongoing _ => ⟨none, tr3⟩
  | MonOut.webExited c h =>
    ⟨some (Outcome.code c), tr3 ++ [Event.terminate Role.web] ++ (if h then [Event.terminate Role.mcp] else [])⟩
  | MonOut.interrupted h =>
    ⟨some (Outcome.code 0), tr3 ++ [Event.terminate Role.web] ++ (if h then [Event.terminate Role.mcp] else [])⟩

/-- The readiness wait and its failure path (app.py lines 115-121): on
timeout, terminate the primary, terminate the secondary if held, emit the
timeout diagnostic, and return 1; on success, run the browser side effect
and enter monitoring. -/
def mainReady (cfg : Config) (w : World) (port : Int) (tr2 : List Event) (held : Bool) : RunOut :=
  if w.ready then mainMonitor w (tr2 ++ browserTrace cfg w port) held
  else
    ⟨some (Outcome.code 1),
      tr2 ++ [Event.terminate Role.web] ++ (if held then [Event.terminate Role.mcp] else [])
        ++ [Event.timeoutDiag port cfg.timeoutMs]⟩

/-- The secondary spawn (app.py lines 106-113): only under `--mcp`; the
`subprocess.Popen` call is not guarded, so a spawn failure propagates,
aborting the run with the primary handle still held and unterminated. -/
def mainMcp (cfg : Config) (w : World) (port : Int) (env : List (String × String)) (tr1 : List Event) : RunOut :=
  if cfg.mcp then
    if w.mcpSpawnOk then mainReady cfg w port (tr1 ++ [Event.spawn Role.mcp env]) true
    else ⟨some (Outcome.err RunErr.spawnSecondary), tr1⟩
  else mainReady cfg w port tr1 false

/-- The primary spawn (app.py lines 100-104): an unguarded
`subprocess.Popen`, so a spawn failure propagates (no handle is held yet). -/
def mainSpawn (cfg : Config) (w : World) (port : Int) (env : List (String × String)) (tr0 : List Event) : RunOut :=
  if w.webSpawnOk then mainMcp cfg w port env (tr0 ++ [Event.spawn Role.web env])
  else ⟨some (Outcome.err RunErr.spawnPrimary), tr0⟩

/-- The run from the port check onward (app.py lines 89-145), once the
requested port `rp` has been parsed. -/
def mainAfterPort (cfg : Config) (w : World) (rp : Int) : RunOut :=
  mainSpawn cfg w (effectivePort w rp) (spawnEnv w rp) (probeTrace w rp)

/-- `main()` (app.py lines 72-145). `int(env.get("PORT", "3000"))` at line
88 raises `ValueError` on an unparsable value, before any probe or spawn. -/
def mainRun (cfg : Config) (w : World) : RunOut :=
  match pyIntParse (portString w) with
  | none => ⟨some (Outcome.err RunErr.valueError), []⟩
  | some rp => mainAfterPort cfg w rp

/-- Trace-independent characterization of the run result from the readiness
wait onward (app.py lines 115-145). -/
def readyResult (w : World) (held : Bool) : Option Outcome :=
  if w.ready then
    match monitor w.obs held with
    | MonOut.ongoing _ => none
    | MonOut.webExited c _ => some (Outcome.code c)
    | MonOut.interrupted _ => some (Outcome.code 0)
  else some (Outcome.code 1)


/-! ### Concrete configurations and worlds used by counterexamples and witnesses -/

/-- The CLI defaults of app.py lines 74-81: no flag given. -/
def cfgDefault : Config := ⟨"127.0.0.1", false, false, 20000⟩

/-- A configuration with `--no-open` and `--mcp` set. -/
def cfgMcp : Config := ⟨"127.0.0.1", true, true, 20000⟩

/-- A world where everything succeeds and the primary exits with code 7 in
the first monitoring iteration. -/
def wPrimaryExit : World :=
  ⟨[("PORT", "3000")], false, [], fun _ => false, 51423, true, true, true, false,
    [⟨some 7, none, false⟩]⟩

/-- A world where the secondary (MCP) spawn fails while everything else
would succeed. -/
def wMcpFail : World :=
  ⟨[], false, [], fun _ => false, 51423, true, false, true, false, []⟩

/-- A world where the real environment has `PORT=4000` and the `.env` file
sets `PORT=5000`. -/
def wEnvClash : World :=
  ⟨[("PORT", "4000")], true, ["PORT=5000"], fun _ => false, 51423, true, true, true, false, []⟩

/-- A world whose merged `PORT` value `30a0` is not a valid integer. -/
def wBadPort : World :=
  ⟨[("PORT", "30a0")], false, [], fun _ => false, 51423, true, true, true, false, []⟩

/-- A world where the requested port 3000 is occupied and `find_free_port`
answers 51423; the run is interrupted in the first monitoring iteration. -/
def wOccupied : World :=
  ⟨[("PORT", "3000")], false, [], fun p => p == 3000, 51423, true, true, true, false,
    [⟨none, none, true⟩]⟩

/-- A world with default-ish success and a primary exiting with code 0,
used for the browser-URL counterexample. -/
def wBrowse : World :=
  ⟨[], false, [], fun _ => false, 51423, true, true, true, false, [⟨some 0, none, false⟩]⟩

/-- A child that ignores the graceful-termination request and never exits
on its own, and on which no signalling call raises. -/
def bStubborn : ChildBehavior := ⟨false, false, none, false, false⟩

/-! ### Dictionary lemmas -/

theorem envGet_envSet_self (e : List (String × String)) (k v : String) :
    envGet (envSet e k v) k = some v := by
  induction e with
  | nil => simp [envSet, envGet]
  | cons p rest ih =>
    obtain ⟨k0, v0⟩ := p
    by_cases h : k0 = k
    · simp [envSet, envGet, h]
    · simp [envSet, envGet, h, ih]

theorem envGet_envSet_ne (e : List (String × String)) (k0 v k : String) (h : k0 ≠ k) :
    envGet (envSet e k0 v) k = envGet e k := by
  induction e with
  | nil => simp [envSet, envGet, h]
  | cons p rest ih =>
    obtain ⟨k1, v1⟩ := p
    by_cases h1 : k1 = k0
    · subst h1
      simp [envSet, envGet, h]
    · simp [envSet, envGet, h1, ih]

theorem envUpdate_get (l : List (String × String)) (base : List (String × String)) (k : String) :
    envGet (envUpdate base l) k = (lookupLast l k).elim (envGet base k) some := by
  induction l generalizing base with
  | nil => simp [envUpdate, lookupLast]
  | cons p rest ih =>
    obtain ⟨k0, v0⟩ := p
    have hstep : envUpdate base ((k0, v0) :: rest) = envUpdate (envSet base k0 v0) rest := rfl
    rw [hstep, ih]
    cases hlk : lookupLast rest k with
    | some v => simp [lookupLast, hlk]
    | none =>
      by_cases h : k0 = k
      · subst h
        simp [lookupLast, hlk, envGet_envSet_self]
      · simp [lookupLast, hlk, h, envGet_envSet_ne base k0 v0 k h]

/-! ### `wait_for_port` lemmas -/

theorem attemptStart_le (a : Nat → Nat × Bool) {i k : Nat} (h : i ≤ k) :
    attemptStart a i ≤ attemptStart a k := by
  induction h with
  | refl => exact Nat.le_refl _
  | step h ih => exact Nat.le_trans ih (by simp [attemptStart]; omega)

theorem waitLoop_false_bound (a : Nat → Nat × Bool) (deadline : Nat)
    (hd : ∀ j, (a j).1 ≤ connectTimeoutMs) :
    ∀ fuel now i, now < deadline + connectTimeoutMs + sleepMs →
      (waitLoop a deadline fuel now i).1 = false →
      (waitLoop a deadline fuel now i).2 < deadline + connectTimeoutMs + sleepMs := by
  intro fuel
  induction fuel with
  | zero =>
    intro now i hnow _
    unfold waitLoop
    split <;> simpa using hnow
  | succ f ih =>
    intro now i hnow hfalse
    unfold waitLoop at hfalse ⊢
    by_cases hlt : now < deadline
    · simp only [hlt, if_true] at hfalse ⊢
      by_cases hsucc : (a i).2 = true
      · simp [hsucc] at hfalse
      · have hsf : (a i).2 = false := by revert hsucc; cases (a i).2 <;> simp
        simp only [hsf, Bool.false_eq_true, if_false] at hfalse ⊢
        apply ih
        · have := hd i
          omega
        · exact hfalse
    · simp only [hlt, if_false] at hfalse ⊢
      simpa using hnow

theorem waitLoop_true_iff (a : Nat → Nat × Bool) (deadline : Nat) :
    ∀ fuel i, deadline ≤ attemptStart a i + sleepMs * fuel →
      ((waitLoop a deadline fuel (attemptStart a i) i).1 = true ↔
        ∃ k, i ≤ k ∧ attemptStart a k < deadline ∧ (a k).2 = true ∧
          ∀ j, i ≤ j → j < k → (a j).2 = false) := by
  intro fuel
  induction fuel with
  | zero =>
    intro i hfuel
    have hlt : ¬ attemptStart a i < deadline := by omega
    have hR : ¬ ∃ k, i ≤ k ∧ attemptStart a k < deadline ∧ (a k).2 = true ∧
        ∀ j, i ≤ j → j < k → (a j).2 = false := by
      rintro ⟨k, hik, hk, -, -⟩
      have := attemptStart_le a hik
      omega
    unfold waitLoop
    simp [hlt, hR]
  | succ f ih =>
    intro i hfuel
    by_cases hlt : attemptStart a i < deadline
    · unfold waitLoop
      simp only [hlt, if_true]
      by_cases hsucc : (a i).2 = true
      · simp only [hsucc, if_true]
        simp only [true_iff]
        exact ⟨i, Nat.le_refl i, hlt, hsucc, fun j hij hji => absurd (Nat.lt_of_le_of_lt hij hji) (Nat.lt_irrefl _)⟩
      · have hsf : (a i).2 = false := by revert hsucc; cases (a i).2 <;> simp
        simp only [hsf, Bool.false_eq_true, if_false]
        have hstep : attemptStart a i + (a i).1 + sleepMs = attemptStart a (i + 1) := rfl
        rw [hstep]
        have hfuel2 : deadline ≤ attemptStart a (i + 1) + sleepMs * f := by
          have h1 : attemptStart a (i + 1) = attemptStart a i + (a i).1 + sleepMs := rfl
          have h2 : sleepMs * (f + 1) = sleepMs * f + sleepMs := by ring
          omega
        rw [ih (i + 1) hfuel2]
        constructor
        · rintro ⟨k, hik, hk, hks, hfail⟩
          refine ⟨k, Nat.le_trans (Nat.le_succ i) hik, hk, hks, fun j hij hjk => ?_⟩
          rcases Nat.eq_or_lt_of_le hij with he | hl
          · rw [← he]
            exact hsf
          · exact hfail j hl hjk
        · rintro ⟨k, hik, hk, hks, hfail⟩
          have hki : k ≠ i := by
            intro he
            rw [he, hsf] at hks
            exact Bool.false_ne_true hks
          refine ⟨k, by omega, hk, hks, fun j hij hjk => hfail j (Nat.le_trans (Nat.le_succ i) hij) hjk⟩
    · have hR : ¬ ∃ k, i ≤ k ∧ attemptStart a k < deadline ∧ (a k).2 = true ∧
          ∀ j, i ≤ j → j < k → (a j).2 = false := by
        rintro ⟨k, hik, hk, -, -⟩
        have := attemptStart_le a hik
        omega
      unfold waitLoop
      simp [hlt, hR]

theorem wait_for_port_true_iff (a : Nat → Nat × Bool) (timeoutMs : Nat) :
    (wait_for_port a timeoutMs).1 = true ↔
      ∃ k, attemptStart a k < timeoutMs ∧ (a k).2 = true ∧ ∀ j, j < k → (a j).2 = false := by
  have hfuel : timeoutMs ≤ attemptStart a 0 + sleepMs * (timeoutMs / sleepMs + 1) := by
    simp only [attemptStart, sleepMs]
    omega
  simpa [attemptStart, wait_for_port] using waitLoop_true_iff a timeoutMs (timeoutMs / sleepMs + 1) 0 hfuel

theorem wait_for_port_false_bound (a : Nat → Nat × Bool) (timeoutMs : Nat)
    (hd : ∀ j, (a j).1 ≤ connectTimeoutMs)
    (hf : (wait_for_port a timeoutMs).1 = false) :
    (wait_for_port a timeoutMs).2 < timeoutMs + connectTimeoutMs + sleepMs := by
  exact waitLoop_false_bound a timeoutMs hd (timeoutMs / sleepMs + 1) 0 0
    (by simp only [connectTimeoutMs, sleepMs]; omega) hf

/-! ### Supervisor lemmas -/

theorem mainReady_result (cfg : Config) (w : World) (port : Int) (tr : List Event) (held : Bool) :
    (mainReady cfg w port tr held).result = readyResult w held := by
  unfold mainReady readyResult mainMonitor
  by_cases hr : w.ready
  · simp only [hr, if_true]
    cases monitor w.obs held <;> rfl
  · simp [hr]

theorem mainRun_result (cfg : Config) (w : World) (rp : Int)
    (hp : pyIntParse (portString w) = some rp)
    (hws : w.webSpawnOk = true)
    (hms : cfg.mcp = true → w.mcpSpawnOk = true) :
    (mainRun cfg w).result = readyResult w cfg.mcp := by
  unfold mainRun
  rw [hp]
  unfold mainAfterPort mainSpawn
  simp only [hws, if_true]
  unfold mainMcp
  by_cases hm : cfg.mcp = true
  · simp only [hm, hms hm, if_true, mainReady_result]
  · have hm2 : cfg.mcp = false := by revert hm; cases cfg.mcp <;> simp
    simp only [hm2, Bool.false_eq_true, if_false, mainReady_result]

theorem mainRun_trace_eq (cfg : Config) (w : World) (rp : Int)
    (hp : pyIntParse (portString w) = some rp) :
    (mainRun cfg w).trace = (mainAfterPort cfg w rp).trace := by
  unfold mainRun
  rw [hp]


theorem mainMonitor_trace (w : World) (tr : List Event) (held : Bool) :
    ∃ r, (mainMonitor w tr held).trace = tr ++ r := by
  unfold mainMonitor
  cases monitor w.obs held with
  | ongoing h => exact ⟨[], by simp⟩
  | webExited c h =>
    exact ⟨[Event.terminate Role.web] ++ (if h then [Event.terminate Role.mcp] else []), by simp⟩
  | interrupted h =>
    exact ⟨[Event.terminate Role.web] ++ (if h then [Event.terminate Role.mcp] else []), by simp⟩

theorem mainReady_trace (cfg : Config) (w : World) (port : Int) (tr : List Event) (held : Bool) :
    ∃ r, (mainReady cfg w port tr held).trace = tr ++ r := by
  unfold mainReady
  by_cases hr : w.ready
  · simp only [hr, if_true]
    obtain ⟨r, hmr⟩ := mainMonitor_trace w (tr ++ browserTrace cfg w port) held
    exact ⟨browserTrace cfg w port ++ r, by rw [hmr, List.append_assoc]⟩
  · simp only [hr, if_false]
    exact ⟨[Event.terminate Role.web] ++ (if held then [Event.terminate Role.mcp] else [])
      ++ [Event.timeoutDiag port cfg.timeoutMs], by simp⟩

theorem mainMcp_trace (cfg : Config) (w : World) (port : Int) (env : List (String × String))
    (tr : List Event) :
    ∃ r, (mainMcp cfg w port env tr).trace = tr ++ r := by
  unfold mainMcp
  by_cases hm : cfg.mcp = true
  · simp only [hm, if_true]
    by_cases hmk : w.mcpSpawnOk = true
    · simp only [hmk, if_true]
      obtain ⟨r, hmr⟩ := mainReady_trace cfg w port (tr ++ [Event.spawn Role.mcp env]) true
      exact ⟨[Event.spawn Role.mcp env] ++ r, by rw [hmr, List.append_assoc]⟩
    · have hmk2 : w.mcpSpawnOk = false := by revert hmk; cases w.mcpSpawnOk <;> simp
      simp only [hmk2, Bool.false_eq_true, if_false]
      exact ⟨[], by simp⟩
  · have hm2 : cfg.mcp = false := by revert hm; cases cfg.mcp <;> simp
    simp only [hm2, Bool.false_eq_true, if_false]
    exact mainReady_trace cfg w port tr false

theorem mainSpawn_trace (cfg : Config) (w : World) (port : Int) (env : List (String × String))
    (tr : List Event) :
    ∃ r, (mainSpawn cfg w port env tr).trace = tr ++ r := by
  unfold mainSpawn
  by_cases hws : w.webSpawnOk = true
  · simp only [hws, if_true]
    obtain ⟨r, hmr⟩ := mainMcp_trace cfg w port env (tr ++ [Event.spawn Role.web env])
    exact ⟨[Event.spawn Role.web env] ++ r, by rw [hmr, List.append_assoc]⟩
  · have hws2 : w.webSpawnOk = false := by revert hws; cases w.webSpawnOk <;> simp
    simp only [hws2, Bool.false_eq_true, if_false]
    exact ⟨[], by simp⟩

theorem mainAfterPort_trace_probe (cfg : Config) (w : World) (rp : Int) :
    ∃ rest, (mainAfterPort cfg w rp).trace = probeTrace w rp ++ rest := by
  unfold mainAfterPort
  exact mainSpawn_trace cfg w (effectivePort w rp) (spawnEnv w rp) (probeTrace w rp)

theorem mainAfterPort_trace_spawn (cfg : Config) (w : World) (rp : Int)
    (hws : w.webSpawnOk = true) :
    ∃ rest, (mainAfterPort cfg w rp).trace =
      probeTrace w rp ++ Event.spawn Role.web (spawnEnv w rp) :: rest := by
  unfold mainAfterPort mainSpawn
  simp only [hws, if_true]
  obtain ⟨r, hmr⟩ := mainMcp_trace cfg w (effectivePort w rp) (spawnEnv w rp)
    (probeTrace w rp ++ [Event.spawn Role.web (spawnEnv w rp)])
  exact ⟨r, by rw [hmr, List.append_assoc]; rfl⟩

theorem browserTrace_mem (cfg : Config) (w : World) (port : Int) :
    ∀ ev ∈ browserTrace cfg w port, ev = Event.browserOpen (urlOf port) := by
  intro ev hev
  unfold browserTrace at hev
  repeat' split at hev
  all_goals simp_all

theorem mainMonitor_mem (w : World) (tr : List Event) (held : Bool) :
    ∀ ev ∈ (mainMonitor w tr held).trace,
      ev ∈ tr ∨ ev = Event.terminate Role.web ∨ ev = Event.terminate Role.mcp := by
  intro ev hev
  unfold mainMonitor at hev
  repeat' split at hev
  all_goals try simp_all [List.mem_append]
  all_goals tauto

theorem mainReady_mem (cfg : Config) (w : World) (port : Int) (tr : List Event) (held : Bool) :
    ∀ ev ∈ (mainReady cfg w port tr held).trace,
      ev ∈ tr ∨ ev = Event.terminate Role.web ∨ ev = Event.terminate Role.mcp ∨
      ev = Event.timeoutDiag port cfg.timeoutMs ∨ ev = Event.browserOpen (urlOf port) := by
  intro ev hev
  unfold mainReady at hev
  by_cases hr : w.ready
  · simp only [hr, if_true] at hev
    have h := mainMonitor_mem w (tr ++ browserTrace cfg w port) held ev hev
    have hb := browserTrace_mem cfg w port ev
    simp only [List.mem_append] at h
    tauto
  · have hr2 : w.ready = false := by revert hr; cases w.ready <;> simp
    simp only [hr2, Bool.false_eq_true, if_false] at hev
    by_cases hh : held = true
    · simp only [hh, if_true, List.append_assoc, List.mem_append, List.mem_singleton,
        List.mem_cons, List.not_mem_nil] at hev
      tauto
    · have hh2 : held = false := by revert hh; cases held <;> simp
      simp only [hh2, Bool.false_eq_true, if_false, List.append_assoc, List.mem_append,
        List.mem_singleton, List.mem_cons, List.not_mem_nil] at hev
      tauto

theorem mainMcp_mem (cfg : Config) (w : World) (port : Int) (env : List (String × String))
    (tr : List Event) :
    ∀ ev ∈ (mainMcp cfg w port env tr).trace,
      ev ∈ tr ∨ ev = Event.spawn Role.mcp env ∨ ev = Event.terminate Role.web ∨
      ev = Event.terminate Role.mcp ∨ ev = Event.timeoutDiag port cfg.timeoutMs ∨
      ev = Event.browserOpen (urlOf port) := by
  intro ev hev
  unfold mainMcp at hev
  by_cases hm : cfg.mcp = true
  · simp only [hm, if_true] at hev
    by_cases hmk : w.mcpSpawnOk = true
    · simp only [hmk, if_true] at hev
      have h := mainReady_mem cfg w port (tr ++ [Event.spawn Role.mcp env]) true ev hev
      simp only [List.mem_append, List.mem_singleton] at h
      tauto
    · have hmk2 : w.mcpSpawnOk = false := by revert hmk; cases w.mcpSpawnOk <;> simp
      simp only [hmk2, Bool.false_eq_true, if_false] at hev
      exact Or.inl hev
  · have hm2 : cfg.mcp = false := by revert hm; cases cfg.mcp <;> simp
    simp only [hm2, Bool.false_eq_true, if_false] at hev
    have h := mainReady_mem cfg w port tr false ev hev
    tauto

theorem mainSpawn_mem (cfg : Config) (w : World) (port : Int) (env : List (String × String))
    (tr : List Event) :
    ∀ ev ∈ (mainSpawn cfg w port env tr).trace,
      ev ∈ tr ∨ ev = Event.spawn Role.web env ∨ ev = Event.spawn Role.mcp env ∨
      ev = Event.terminate Role.web ∨ ev = Event.terminate Role.mcp ∨
      ev = Event.timeoutDiag port cfg.timeoutMs ∨ ev = Event.browserOpen (urlOf port) := by
  intro ev hev
  unfold mainSpawn at hev
  by_cases hws : w.webSpawnOk = true
  · simp only [hws, if_true] at hev
    have h := mainMcp_mem cfg w port env (tr ++ [Event.spawn Role.web env]) ev hev
    simp only [List.mem_append, List.mem_singleton] at h
    tauto
  · have hws2 : w.webSpawnOk = false := by revert hws; cases w.webSpawnOk <;> simp
    simp only [hws2, Bool.false_eq_true, if_false] at hev
    exact Or.inl hev

theorem mainAfterPort_trace_mem (cfg : Config) (w : World) (rp : Int) :
    ∀ ev ∈ (mainAfterPort cfg w rp).trace,
      ev = Event.probe rp ∨ ev = Event.portDiag rp w.freePort ∨
      ev = Event.spawn Role.web (spawnEnv w rp) ∨ ev = Event.spawn Role.mcp (spawnEnv w rp) ∨
      ev = Event.terminate Role.web ∨ ev = Event.terminate Role.mcp ∨
      ev = Event.timeoutDiag (effectivePort w rp) cfg.timeoutMs ∨
      ev = Event.browserOpen (urlOf (effectivePort w rp)) := by
  intro ev hev
  unfold mainAfterPort at hev
  have h := mainSpawn_mem cfg w (effectivePort w rp) (spawnEnv w rp) (probeTrace w rp) ev hev
  have hpr : ev ∈ probeTrace w rp → ev = Event.probe rp ∨ ev = Event.portDiag rp w.freePort := by
    intro hin
    unfold probeTrace at hin
    repeat' split at hin
    all_goals simp_all
  tauto

theorem browserTrace_browser_mem (cfg : Config) (w : World) (port : Int)
    (hopen : cfg.noOpen = false) :
    Event.browserOpen (urlOf port) ∈ browserTrace cfg w port := by
  unfold browserTrace
  simp only [hopen, Bool.false_eq_true, if_false]
  cases hbr : w.browserRaises <;> simp [hbr]

theorem mainReady_browser_mem (cfg : Config) (w : World) (port : Int) (tr : List Event)
    (held : Bool) (hready : w.ready = true) (hopen : cfg.noOpen = false) :
    Event.browserOpen (urlOf port) ∈ (mainReady cfg w port tr held).trace := by
  unfold mainReady
  simp only [hready, if_true]
  obtain ⟨r, hr⟩ := mainMonitor_trace w (tr ++ browserTrace cfg w port) held
  rw [hr]
  exact List.mem_append.mpr (Or.inl (List.mem_append.mpr
    (Or.inr (browserTrace_browser_mem cfg w port hopen))))

/-! ## The claims -/

/-- C1: for every run of the supervisor (with the port value parsing and
both requested spawns succeeding, so that the run reaches the readiness
wait), the reported RunResult exit code is the primary child's own exit
code when the primary exits first during monitoring, 1 when the readiness
wait times out, and 0 when a KeyboardInterrupt is received during
monitoring. -/
theorem c1_run_exit_codes (cfg : Config) (w : World) (rp : Int)
    (hp : pyIntParse (portString w) = some rp)
    (hws : w.webSpawnOk = true)
    (hms : cfg.mcp = true → w.mcpSpawnOk = true) :
    (w.ready = false → (mainRun cfg w).result = some (Outcome.code 1)) ∧
    (∀ c h, w.ready = true → monitor w.obs cfg.mcp = MonOut.webExited c h →
      (mainRun cfg w).result = some (Outcome.code c)) ∧
    (∀ h, w.ready = true → monitor w.obs cfg.mcp = MonOut.interrupted h →
      (mainRun cfg w).result = some (Outcome.code 0)) := by
  have hres := mainRun_result cfg w rp hp hws hms
  refine ⟨?_, ?_, ?_⟩
  · intro hready
    rw [hres]
    unfold readyResult
    simp [hready]
  · intro c h hready hmon
    rw [hres]
    unfold readyResult
    simp [hready, hmon]
  · intro h hready hmon
    rw [hres]
    unfold readyResult
    simp [hready, hmon]

/-- C1 witness: a concrete run in which the primary exits with code 7 in
the first monitoring iteration reports exit code 7. -/
theorem c1_run_exit_codes_witness :
    (mainRun cfgDefault wPrimaryExit).result = some (Outcome.code 7) :=
  (c1_run_exit_codes cfgDefault wPrimaryExit 3000 (by decide) (by decide)
    (fun h => nomatch h)).2.1 7 false (by decide) (by decide)

/-- C2 (code bug): the `finally` block of app.py lines 141-144 covers only
the monitoring loop, while the secondary `subprocess.Popen` of line 108 is
unguarded; when the secondary spawn fails, the run exits via the
propagating exception with the primary child spawned but never terminated,
contradicting the spec's requirement that every exit path reaches process
cleanup. -/
theorem c2_spawn_exception_skips_cleanup :
    (mainRun cfgMcp wMcpFail).result = some (Outcome.err RunErr.spawnSecondary) ∧
    Event.spawn Role.web [] ∈ (mainRun cfgMcp wMcpFail).trace ∧
    Event.terminate Role.web ∉ (mainRun cfgMcp wMcpFail).trace := by decide

/-- C3: after the port check and before any spawn, the effective port
equals the requested port when the requested port is not accepting
connections; when it is occupied, the effective port is the freshly
obtained free port, differs from the requested port, the spawn
environment's `PORT` entry equals it, and the substitution diagnostic
naming it is in the trace; every spawn in the trace uses that environment,
and the port appearing in later events (the readiness-timeout diagnostic)
is the effective port, which is never changed after spawning. -/
theorem c3_port_negotiation (cfg : Config) (w : World) (rp : Int)
    (hp : pyIntParse (portString w) = some rp)
    (hfree : w.portOpen w.freePort = false) :
    (w.portOpen rp = false → effectivePort w rp = rp) ∧
    (w.portOpen rp = true →
      effectivePort w rp = w.freePort ∧ effectivePort w rp ≠ rp ∧
      envGet (spawnEnv w rp) "PORT" = some (toString w.freePort) ∧
      Event.portDiag rp w.freePort ∈ (mainRun cfg w).trace) ∧
    (w.webSpawnOk = true → Event.spawn Role.web (spawnEnv w rp) ∈ (mainRun cfg w).trace) ∧
    (∀ r e, Event.spawn r e ∈ (mainRun cfg w).trace → e = spawnEnv w rp) ∧
    (∀ p t, Event.timeoutDiag p t ∈ (mainRun cfg w).trace → p = effectivePort w rp) := by
  have htr : (mainRun cfg w).trace = (mainAfterPort cfg w rp).trace := mainRun_trace_eq cfg w rp hp
  refine ⟨?_, ?_, ?_, ?_, ?_⟩
  · intro hpo
    unfold effectivePort
    simp [hpo]
  · intro hpo
    refine ⟨by unfold effectivePort; simp [hpo], ?_, ?_, ?_⟩
    · unfold effectivePort
      simp only [hpo, if_true]
      intro he
      rw [he, hpo] at hfree
      simp at hfree
    · unfold spawnEnv
      simp only [hpo, if_true]
      exact envGet_envSet_self _ _ _
    · rw [htr]
      obtain ⟨rest, hrest⟩ := mainAfterPort_trace_probe cfg w rp
      rw [hrest]
      unfold probeTrace
      simp [hpo]
  · intro hws
    rw [htr]
    obtain ⟨rest, hrest⟩ := mainAfterPort_trace_spawn cfg w rp hws
    rw [hrest]
    simp
  · intro r e hmem
    rw [htr] at hmem
    rcases mainAfterPort_trace_mem cfg w rp _ hmem with h | h | h | h | h | h | h | h <;> simp_all
  · intro p t hmem
    rw [htr] at hmem
    rcases mainAfterPort_trace_mem cfg w rp _ hmem with h | h | h | h | h | h | h | h <;> simp_all

/-- C3 witness: with requested port 3000 occupied and `find_free_port`
answering 51423, the effective port is 51423, differs from 3000, the spawn
environment carries `PORT=51423`, and the substitution diagnostic is
emitted. -/
theorem c3_port_negotiation_witness :
    effectivePort wOccupied 3000 = wOccupied.freePort ∧ effectivePort wOccupied 3000 ≠ 3000 ∧
    envGet (spawnEnv wOccupied 3000) "PORT" = some (toString wOccupied.freePort) ∧
    Event.portDiag 3000 wOccupied.freePort ∈ (mainRun cfgDefault wOccupied).trace :=
  (c3_port_negotiation cfgDefault wOccupied 3000 (by decide) (by decide)).2.1 (by decide)

/-- C4 (code bug): with `--mcp` set and the secondary spawn failing, the
run does not proceed with the primary only — app.py line 108's unguarded
`Popen` lets the exception abort the whole run before the readiness wait,
so RunResult is not determined by the primary's behavior (the run reports
the propagating SpawnError, and the primary is left running). -/
theorem c4_secondary_spawn_aborts_run :
    mainRun cfgMcp wMcpFail =
      ⟨some (Outcome.err RunErr.spawnSecondary),
        [Event.probe 3000, Event.spawn Role.web []]⟩ := by decide

/-- C5 counterexample: with real environment `PORT=4000` and `.env` line
`PORT=5000`, the merged environment carries the file's value `5000`, not
the pre-existing environment variable's value — `dict.update` at app.py
line 86 lets the file win, contradicting the claim. -/
theorem c5_dotenv_wins_counterexample :
    envGet wEnvClash.osEnv "PORT" = some "4000" ∧
    envGet (mergedEnv wEnvClash) "PORT" = some "5000" ∧
    envGet (mergedEnv wEnvClash) "PORT" ≠ envGet wEnvClash.osEnv "PORT" := by decide

/-- C5 amended: values parsed from the `.env` file override pre-existing
real environment variables of the same name in the merged child
environment; a pre-existing variable's value survives only when the file
does not define that key. -/
theorem c5_env_merge_amended (w : World) (k : String) :
    (∀ v, lookupLast (load_dotenv w.dotenvPresent w.dotenvLines) k = some v →
      envGet (mergedEnv w) k = some v) ∧
    (lookupLast (load_dotenv w.dotenvPresent w.dotenvLines) k = none →
      envGet (mergedEnv w) k = envGet w.osEnv k) := by
  constructor
  · intro v hv
    unfold mergedEnv
    rw [envUpdate_get, hv]
    rfl
  · intro hv
    unfold mergedEnv
    rw [envUpdate_get, hv]
    rfl

/-- C5 amended witness: on the concrete clash world the merged `PORT` is
the file's `5000`. -/
theorem c5_env_merge_amended_witness :
    envGet (mergedEnv wEnvClash) "PORT" = some "5000" :=
  (c5_env_merge_amended wEnvClash "PORT").1 "5000" (by decide)

/-- C6 counterexample: with a 1.0 s timeout and every connection attempt
consuming its full 0.8 s connect timeout, `wait_for_port` returns false
only after 1.9 s — more than the timeout plus one 0.15 s polling interval
— and, when the second attempt succeeds, returns true at 1.75 s although
the successful connection completes after the 1.0 s deadline (the attempt
merely began before it). -/
theorem c6_wait_counterexample :
    wait_for_port alwaysSlowFail 1000 = (false, 1900) ∧ 1000 + sleepMs < 1900 ∧
    wait_for_port slowThenOk 1000 = (true, 1750) ∧ 1000 < 1750 := by decide

/-- C6 amended: `wait_for_port` returns true iff some connection attempt
begun before the deadline succeeds, all earlier attempts having failed;
when it returns false, the wall time consumed is below the timeout plus
one attempt connect timeout (0.8 s) plus one polling interval (0.15 s). -/
theorem c6_wait_for_port_amended (a : Nat → Nat × Bool) (timeoutMs : Nat)
    (hd : ∀ j, (a j).1 ≤ connectTimeoutMs) :
    ((wait_for_port a timeoutMs).1 = true ↔
      ∃ k, attemptStart a k < timeoutMs ∧ (a k).2 = true ∧ ∀ j, j < k → (a j).2 = false) ∧
    ((wait_for_port a timeoutMs).1 = false →
      (wait_for_port a timeoutMs).2 < timeoutMs + connectTimeoutMs + sleepMs) :=
  ⟨wait_for_port_true_iff a timeoutMs, wait_for_port_false_bound a timeoutMs hd⟩

/-- C6 amended witness: on the oracle whose second attempt succeeds, the
attempt begins at 0.95 s, before the 1.0 s deadline, so the wait returns
true. -/
theorem c6_wait_for_port_amended_witness :
    (wait_for_port slowThenOk 1000).1 = true :=
  (c6_wait_for_port_amended slowThenOk 1000
      (by intro j; unfold slowThenOk; by_cases h : j = 0 <;> simp [h, connectTimeoutMs])).1.mpr
    ⟨1, by decide, by decide, by decide⟩

/-- C7: for every `terminate_process` call whose signalling errors can only
mean the process is already gone, the process is gone when the call
returns, within the grace period (the model sends the forced kill exactly
at the grace deadline, so the escalation margin is the kill itself),
regardless of whether and when the process would honor the
graceful-termination request. -/
theorem c7_terminate_always_gone (polled : Option Int) (b : ChildBehavior) (graceMs : Nat)
    (h1 : b.termRaises = true → b.goneOnTermRaise = true)
    (h2 : b.killRaises = true → b.goneOnKillRaise = true) :
    ∃ r, terminate_process polled b graceMs = Except.ok r ∧ r.gone = true ∧
      r.waitedMs ≤ graceMs := by
  unfold terminate_process
  cases polled with
  | some c => exact ⟨⟨true, [], 0⟩, rfl, rfl, Nat.zero_le _⟩
  | none =>
    by_cases ht : b.termRaises = true
    · simp only [ht, if_true]
      exact ⟨_, rfl, h1 ht, Nat.zero_le _⟩
    · have ht2 : b.termRaises = false := by revert ht; cases b.termRaises <;> simp
      simp only [ht2, Bool.false_eq_true, if_false]
      cases he : b.exitDelayMs with
      | some t =>
        by_cases hle : t ≤ graceMs
        · simp only [hle, if_true]
          exact ⟨_, rfl, rfl, hle⟩
        · simp only [hle, if_false]
          by_cases hk : b.killRaises = true
          · simp only [hk, if_true]
            exact ⟨_, rfl, h2 hk, Nat.le_refl _⟩
          · have hk2 : b.killRaises = false := by revert hk; cases b.killRaises <;> simp
            simp only [hk2, Bool.false_eq_true, if_false]
            exact ⟨_, rfl, rfl, Nat.le_refl _⟩
      | none =>
        by_cases hk : b.killRaises = true
        · simp only [hk, if_true]
          exact ⟨_, rfl, h2 hk, Nat.le_refl _⟩
        · have hk2 : b.killRaises = false := by revert hk; cases b.killRaises <;> simp
          simp only [hk2, Bool.false_eq_true, if_false]
          exact ⟨_, rfl, rfl, Nat.le_refl _⟩

/-- C7 witness: terminating a child that never exits on its own with the
default 6 s grace still leaves it gone within the grace period. -/
theorem c7_terminate_always_gone_witness :
    ∃ r, terminate_process none bStubborn 6000 = Except.ok r ∧ r.gone = true ∧
      r.waitedMs ≤ 6000 :=
  c7_terminate_always_gone none bStubborn 6000 (fun h => nomatch h) (fun h => nomatch h)

/-- C8: calling `terminate_process` on an already-exited child performs no
action — it sends no signal, waits for nothing — and raises no error; and
on every input whatsoever the call returns normally rather than raising. -/
theorem c8_terminate_idempotent_never_raises :
    (∀ (c : Int) (b : ChildBehavior) (g : Nat),
      terminate_process (some c) b g = Except.ok ⟨true, [], 0⟩) ∧
    (∀ (polled : Option Int) (b : ChildBehavior) (g : Nat),
      ∃ r, terminate_process polled b g = Except.ok r) := by
  constructor
  · intro c b g
    rfl
  · intro polled b g
    unfold terminate_process
    cases polled with
    | some c => exact ⟨_, rfl⟩
    | none =>
      repeat' split
      all_goals exact ⟨_, rfl⟩

/-- C9 counterexample: with the default host `127.0.0.1`, the browser is
opened at `http://localhost:3000/index.html` — app.py line 98 hard-codes
the host part as `localhost` — and not at the configured host's URL
`http://127.0.0.1:3000/index.html`. -/
theorem c9_host_ignored_counterexample :
    cfgDefault.host = "127.0.0.1" ∧
    Event.browserOpen "http://localhost:3000/index.html" ∈ (mainRun cfgDefault wBrowse).trace ∧
    Event.browserOpen "http://127.0.0.1:3000/index.html" ∉ (mainRun cfgDefault wBrowse).trace := by
  decide

/-- C9 amended: after readiness succeeds and unless browser opening is
suppressed, the supervisor attempts to open a browser at exactly
`http://localhost:<effectivePort>/index.html` — the host part is the
literal `localhost` regardless of the configured host — and any error from
the attempt is caught and ignored, never affecting RunResult. -/
theorem c9_browser_open_amended (cfg : Config) (w : World) (rp : Int)
    (hp : pyIntParse (portString w) = some rp)
    (hws : w.webSpawnOk = true)
    (hms : cfg.mcp = true → w.mcpSpawnOk = true)
    (hready : w.ready = true)
    (hopen : cfg.noOpen = false) :
    Event.browserOpen (urlOf (effectivePort w rp)) ∈ (mainRun cfg w).trace ∧
    ∀ b, (mainRun cfg {w with browserRaises := b}).result = (mainRun cfg w).result := by
  constructor
  · rw [mainRun_trace_eq cfg w rp hp]
    unfold mainAfterPort mainSpawn
    simp only [hws, if_true]
    unfold mainMcp
    by_cases hm : cfg.mcp = true
    · simp only [hm, hms hm, if_true]
      exact mainReady_browser_mem cfg w _ _ true hready hopen
    · have hm2 : cfg.mcp = false := by revert hm; cases cfg.mcp <;> simp
      simp only [hm2, Bool.false_eq_true, if_false]
      exact mainReady_browser_mem cfg w _ _ false hready hopen
  · intro b
    rw [mainRun_result cfg w rp hp hws hms,
      mainRun_result cfg { w with browserRaises := b } rp hp hws hms]
    rfl

/-- C9 amended witness: on a concrete successful run the attempt at the
localhost URL for the effective port is in the trace, and flipping whether
the browser call raises leaves the result unchanged. -/
theorem c9_browser_open_amended_witness :
    Event.browserOpen (urlOf (effectivePort wBrowse 3000)) ∈ (mainRun cfgDefault wBrowse).trace ∧
    (mainRun cfgDefault { wBrowse with browserRaises := true }).result =
      (mainRun cfgDefault wBrowse).result :=
  ⟨(c9_browser_open_amended cfgDefault wBrowse 3000 (by decide) (by decide)
      (fun h => nomatch h) (by decide) (by decide)).1,
    (c9_browser_open_amended cfgDefault wBrowse 3000 (by decide) (by decide)
      (fun h => nomatch h) (by decide) (by decide)).2 true⟩

/-- C10: when the merged environment's `PORT` value is not a valid decimal
integer string, the run aborts with the uncaught `ValueError` from app.py
line 88, with an empty event trace — so no port is probed and no child
process is ever created. -/
theorem c10_invalid_port_aborts_early (cfg : Config) (w : World)
    (hp : pyIntParse (portString w) = none) :
    (mainRun cfg w).result = some (Outcome.err RunErr.valueError) ∧
    (mainRun cfg w).trace = [] ∧
    ∀ r e, Event.spawn r e ∉ (mainRun cfg w).trace := by
  unfold mainRun
  rw [hp]
  exact ⟨rfl, rfl, fun r e h => by simp at h⟩

/-- C10 witness: with merged `PORT=30a0` the run reports the ValueError
and spawns nothing. -/
theorem c10_invalid_port_aborts_early_witness :
    (mainRun cfgDefault wBadPort).result = some (Outcome.err RunErr.valueError) ∧
    (mainRun cfgDefault wBadPort).trace = [] ∧
    ∀ r e, Event.spawn r e ∉ (mainRun cfgDefault wBadPort).trace :=
  c10_invalid_port_aborts_early cfgDefault wBadPort (by decide)
